import Mathlib

/-!
Verification of the dual-token authentication core and the async signal
dispatcher of the Fast-and-Furious service.

The development shallowly embeds the Python sources:
* `app/core/config/auth.py`            — authentication settings (constants);
* `app/api/v1/utils/jwt_generator.py`  — `generate_jwt` / `decode_jwt`;
* `app/api/v1/managers/db/token_blacklist.py` — the Redis-backed revocation
  store (modelled as an association list keyed exactly like the manager keys
  Redis: `f"user:{token}"`);
* `app/api/v1/authentication/jwt_bearer/strategy.py` — `JWTStrategy`
  (`read_token`, `write_token`, `destroy_token`);
* `app/api/v1/authentication/jwt_bearer/transport.py` — `BearerTransport`;
* `app/api/v1/authentication/backend.py` — `AuthenticationBackend.login`;
* `app/api/v1/authentication/authenticator.py` — `Authenticator`;
* `app/api/v1/views/user/auth.py`      — the `refresh` route body;
* `app/core/dispatch/dispatcher.py`    — `Signal`.

JWT strings are embedded symbolically: a token value is either a payload
signed by some key pair with some algorithm, or a non-JWT string.  Machine
time is a `Nat` of epoch seconds.  Coroutines carry no concurrency in the
embedded fragment (every `await` in the embedded code is a plain call), so
the `async` functions are embedded as pure state-passing functions.
-/

namespace FastFurious

/-! ### Settings (`app/core/config/auth.py`) -/

def ACCESS_TOKEN : String := "access_token"

def REFRESH_TOKEN : String := "refresh_token"

def TOKEN_AUDIENCE : String := "backend:authentication"

def ALGORITHM : String := "RS256"

def BACKEND_NAME : String := "jwt_bearer"

def ACCESS_TOKEN_LIFETIME_SECONDS : Nat := 60 * 60

def REFRESH_TOKEN_LIFETIME_SECONDS : Nat := 60 * 60 * 24 * 14

/-! ### Users (`app/core/models/user.py`, flag columns only) -/

structure User where
  id : Nat
  is_active : Bool
  is_verified : Bool
  is_superuser : Bool
deriving DecidableEq, Repr

/-! ### Decimal ids

`JWTStrategy.write_token` stores `str(user.id)` in the `sub` claim and
`UserManager.parse_id` parses it back.  `natToDecimal` embeds Python's
`str` on non-negative ints (decimal rendering). -/

def digitChar (d : Nat) : Char := Char.ofNat (48 + d)

def toDecCore : Nat → Nat → List Char → List Char
  | 0, _, acc => acc
  | fuel + 1, n, acc =>
    if n < 10 then digitChar n :: acc
    else toDecCore fuel (n / 10) (digitChar (n % 10) :: acc)

def natToDecimal (n : Nat) : String := ⟨toDecCore (n + 1) n []⟩

def parseDecDigit (c : Char) : Option Nat :=
  if 48 ≤ c.toNat ∧ c.toNat ≤ 57 then some (c.toNat - 48) else none

def parseDecCore : List Char → Nat → Option Nat
  | [], acc => some acc
  | c :: cs, acc =>
    match parseDecDigit c with
    | some d => parseDecCore cs (acc * 10 + d)
    | none => none

/-- Modelled from the spec: `UserManager.parse_id` (the user manager module
itself is not part of the analysed sources; the spec's principal-store
contract says the strategy looks the principal up "by claim subject" and a
"malformed id" fails the lookup).  A canonical decimal string parses back to
the id it renders; anything else is malformed and yields `none`
(the `InvalidID` failure). -/
def parse_id (s : String) : Option Nat :=
  if s.data.isEmpty then none else parseDecCore s.data 0

/-! ### JWT codec (`app/api/v1/utils/jwt_generator.py`) -/

/-- A decoded JWT payload: the claims `read_token` inspects.  `sub` and
`token_type` are the application claims; `exp` and `aud` are set by
`generate_jwt` and verified by `decode_jwt` (absent in arbitrary tokens). -/
structure Payload where
  sub : Option String
  token_type : Option String
  exp : Option Nat
  aud : Option String
deriving DecidableEq, Repr

/-- A string in token position: either a JWT signed by key pair `key` with
algorithm `alg` over `payload`, or a non-JWT string. -/
inductive Token where
  | signed (key : Nat) (alg : String) (payload : Payload)
  | invalid (s : String)
deriving DecidableEq, Repr

/-- The application data `write_token` passes to `generate_jwt`
(`{"sub": ..., settings.AUTH.TOKEN_TYPE: ...}`). -/
structure JwtData where
  sub : Option String
  token_type : Option String
deriving DecidableEq

/-- `generate_jwt`: copies `data`, sets `exp = now + lifetime_seconds` and
`aud = audience`, signs with the private key. -/
def generate_jwt (now : Nat) (data : JwtData) (private_key : Nat)
    (audience : String) (lifetime_seconds : Nat) (algorithm : String) : Token :=
  Token.signed private_key algorithm
    { sub := data.sub
      token_type := data.token_type
      exp := some (now + lifetime_seconds)
      aud := some audience }

/-- PyJWT's expiry check: a present `exp` claim must lie in the future. -/
def expOk (now : Nat) (e? : Option Nat) : Bool :=
  match e? with
  | none => true
  | some e => now < e

/-- `decode_jwt` at time `now`: fails (raising a `PyJWTError`) on a non-JWT
string, a signature mismatch, an algorithm outside the allow-list, an
audience mismatch, or an expiry in the past; otherwise returns the payload. -/
def decode_jwt (now : Nat) (encoded_jwt : Token) (public_key : Nat)
    (audience : String) (algorithms : List String) : Option Payload :=
  match encoded_jwt with
  | .invalid _ => none
  | .signed key alg payload =>
    if key = public_key ∧ alg ∈ algorithms ∧ payload.aud = some audience ∧
        expOk now payload.exp then
      some payload
    else none

/-! ### Revocation store (`app/api/v1/managers/db/token_blacklist.py`)

Redis `SET key value EX ttl` / `EXISTS key` on logical database 0,
embedded as an association list from keys to `(value, ex)`. -/

abbrev BlacklistKey := String × Token

/-- `RedisTokenBlacklistManager._make_key`: `f"user:{token}"` (default
`key_pre` + colon + token; the token stays symbolic). -/
def make_key (token : Token) : BlacklistKey := ("user", token)

structure BlacklistStore where
  entries : List (BlacklistKey × Nat × Option Nat)
deriving DecidableEq

def BlacklistStore.lookup (st : BlacklistStore) (key : BlacklistKey) :
    Option (Nat × Option Nat) :=
  (st.entries.find? (fun e => decide (e.1 = key))).map (·.2)

/-- Redis `SET` with `EX`: overwrites any previous value and TTL. -/
def BlacklistStore.set (st : BlacklistStore) (key : BlacklistKey)
    (value : Nat) (ex : Option Nat) : BlacklistStore :=
  ⟨(key, value, ex) :: st.entries.filter (fun e => decide (e.1 ≠ key))⟩

/-- Redis `EXISTS`. -/
def BlacklistStore.has_key (st : BlacklistStore) (key : BlacklistKey) : Bool :=
  (st.lookup key).isSome

/-- `token_blacklist_manager.is_blacklisted` (db index 0). -/
def is_blacklisted (st : BlacklistStore) (token : Token) : Bool :=
  st.has_key (make_key token)

/-- `token_blacklist_manager.set` (db index 0). -/
def blacklist_set (st : BlacklistStore) (token : Token) (user_id : Nat)
    (ex : Option Nat) : BlacklistStore :=
  st.set (make_key token) user_id ex

/-! ### JWTStrategy (`app/api/v1/authentication/jwt_bearer/strategy.py`) -/

/-- The state a `JWTStrategy` call runs against: the revocation store, the
user manager's `get` (id lookup; `none` is the `UserNotExists` failure), the
strategy's RSA key pair (one `Nat` names the pair: `write_token` signs with
its private half, `decode_jwt` verifies with its public half), and the clock. -/
structure Env where
  blacklist : BlacklistStore
  users : Nat → Option User
  key : Nat
  now : Nat

/-- `JWTStrategy.lifetime_seconds`: the dict
`{access_token: 3600, refresh_token: 1209600}`; other keys raise `KeyError`. -/
def lifetime_seconds (token_type : String) : Option Nat :=
  if token_type = ACCESS_TOKEN then some ACCESS_TOKEN_LIFETIME_SECONDS
  else if token_type = REFRESH_TOKEN then some REFRESH_TOKEN_LIFETIME_SECONDS
  else none

/-- `JWTStrategy.read_token`. -/
def read_token (env : Env) (token : Token) (required_token_type : String) :
    Option User × Option Nat :=
  if is_blacklisted env.blacklist token then (none, none)
  else
    match decode_jwt env.now token env.key TOKEN_AUDIENCE [ALGORITHM] with
    | none => (none, none)
    | some data =>
      match data.sub, data.token_type with
      | some user_id, some token_type =>
        if token_type ≠ required_token_type then (none, none)
        else
          match parse_id user_id with
          | none => (none, none)
          | some parsed_id =>
            match env.users parsed_id with
            | none => (none, none)
            | some u => (some u, data.exp)
      | _, _ => (none, none)

/-- `JWTStrategy.write_token`: `none` models the `KeyError` on a token type
outside the lifetime dict (never reached by the backend's callers). -/
def write_token (now : Nat) (key : Nat) (user : User) (token_type : String) :
    Option Token :=
  (lifetime_seconds token_type).map (fun lt =>
    generate_jwt now
      { sub := some (natToDecimal user.id), token_type := some token_type }
      key TOKEN_AUDIENCE lt ALGORITHM)

/-- `JWTStrategy.destroy_token`. -/
def destroy_token (bl : BlacklistStore) (user_id : Nat)
    (access_token_info : Token × Nat)
    (refresh_token_info : Option Token × Option Nat) : BlacklistStore :=
  let bl1 := blacklist_set bl access_token_info.1 user_id (some access_token_info.2)
  match refresh_token_info.1 with
  | some rt => blacklist_set bl1 rt user_id refresh_token_info.2
  | none => bl1

/-! ### Decimal round trip -/

theorem parseDecDigit_digitChar : ∀ d, d < 10 → parseDecDigit (digitChar d) = some d := by
  decide

theorem toDecCore_ne_nil : ∀ (fuel n : Nat) (acc : List Char),
    0 < fuel ∨ acc ≠ [] → toDecCore fuel n acc ≠ [] := by
  intro fuel
  induction fuel with
  | zero =>
    intro n acc h
    simp only [toDecCore]
    exact h.resolve_left (by omega)
  | succ fuel ih =>
    intro n acc h
    simp only [toDecCore]
    by_cases h10 : n < 10
    · simp [h10]
    · simp only [h10, if_false]
      exact ih (n / 10) (digitChar (n % 10) :: acc) (Or.inr (by simp))

theorem parseDecCore_toDecCore : ∀ (fuel n : Nat) (acc : List Char) (a : Nat),
    n < fuel →
    ∃ k, parseDecCore (toDecCore fuel n acc) a = parseDecCore acc (a * 10 ^ k + n) := by
  intro fuel
  induction fuel with
  | zero => intro n acc a h; omega
  | succ fuel ih =>
    intro n acc a h
    by_cases h10 : n < 10
    · refine ⟨1, ?_⟩
      simp only [toDecCore, h10, if_true, parseDecCore,
        parseDecDigit_digitChar n h10]
      norm_num
    · have hrec : n / 10 < fuel := by
        have hlt : n / 10 < n := Nat.div_lt_self (by omega) (by norm_num)
        omega
      obtain ⟨k, hk⟩ := ih (n / 10) (digitChar (n % 10) :: acc) a hrec
      refine ⟨k + 1, ?_⟩
      simp only [toDecCore, h10, if_false]
      rw [hk]
      have hd : parseDecDigit (digitChar (n % 10)) = some (n % 10) :=
        parseDecDigit_digitChar _ (Nat.mod_lt _ (by norm_num))
      simp only [parseDecCore, hd]
      congr 1
      have hmod : 10 * (n / 10) + n % 10 = n := Nat.div_add_mod n 10
      calc (a * 10 ^ k + n / 10) * 10 + n % 10
          = a * (10 ^ k * 10) + (10 * (n / 10) + n % 10) := by ring
        _ = a * 10 ^ (k + 1) + n := by rw [hmod, pow_succ]

theorem parse_id_natToDecimal (n : Nat) : parse_id (natToDecimal n) = some n := by
  have hne : toDecCore (n + 1) n [] ≠ [] :=
    toDecCore_ne_nil _ _ _ (Or.inl (Nat.succ_pos n))
  obtain ⟨k, hk⟩ := parseDecCore_toDecCore (n + 1) n [] 0 (Nat.lt_succ_self n)
  have hdata : (natToDecimal n).data = toDecCore (n + 1) n [] := rfl
  unfold parse_id
  rw [hdata, if_neg (by simpa using hne), hk]
  simp [parseDecCore]

/-! ### Authenticator (`app/api/v1/authentication/authenticator.py`) -/

/-- `[^0-9a-zA-Z_]` — the characters `INVALID_CHARS_PATTERN` keeps. -/
def isValidVarChar (c : Char) : Bool := c.isDigit || c.isAlpha || c = '_'

/-- `^[^a-zA-Z_]+` — the characters a variable name may start with. -/
def isValidLeadChar (c : Char) : Bool := c.isAlpha || c = '_'

/-- `name_to_variable_name`: strip invalid characters, strip invalid leading
characters, then `f"{prefix}_{name}"`. -/
def name_to_variable_name (name : String) (pfx : String) : String :=
  pfx ++ "_" ++ ⟨(name.data.filter isValidVarChar).dropWhile (fun c => !isValidLeadChar c)⟩

/-- `Authenticator._get_dependency_signature`: the declared parameter names of
the dependency resolver, in order.  The method takes no token-kind input and
always declares all three parameters. -/
def get_dependency_signature : List String :=
  ["user_manager",
   name_to_variable_name BACKEND_NAME ACCESS_TOKEN,
   name_to_variable_name BACKEND_NAME REFRESH_TOKEN]

def HTTP_401_UNAUTHORIZED : Nat := 401

def HTTP_403_FORBIDDEN : Nat := 403

/-- Outcome of `Authenticator._authenticate`: the returned
`(user, (token, token_exp))` tuple, or a raised `HTTPException`. -/
inductive AuthResult where
  | ok (user : Option User) (token : Option Token) (token_exp : Option Nat)
  | httpError (status_code : Nat)
deriving DecidableEq, Repr

/-- `_authenticate` lines 119-130: fetch the token from the kwarg named for
the required type and read it; no token means no user. -/
def resolve_credential (env : Env) (kwargs : String → Option Token)
    (token_type : String) : Option User × Option Nat :=
  match kwargs (name_to_variable_name BACKEND_NAME token_type) with
  | none => (none, none)
  | some t => read_token env t token_type

/-- `_authenticate` lines 132-141: the policy ladder, returning the surviving
user and the pending status code. -/
def apply_policy (user0 : Option User) (active verified superuser : Bool) :
    Option User × Nat :=
  match user0 with
  | none => (none, HTTP_401_UNAUTHORIZED)
  | some u =>
    if active && !u.is_active then (none, HTTP_401_UNAUTHORIZED)
    else if verified && !u.is_verified || superuser && !u.is_superuser then
      (none, HTTP_403_FORBIDDEN)
    else (some u, HTTP_401_UNAUTHORIZED)

/-- `Authenticator._authenticate`. -/
def authenticate (env : Env) (kwargs : String → Option Token)
    (token_type : String) (optional active verified superuser : Bool) :
    AuthResult :=
  let token := kwargs (name_to_variable_name BACKEND_NAME token_type)
  let res := resolve_credential env kwargs token_type
  let pol := apply_policy res.1 active verified superuser
  if pol.1.isNone && !optional then .httpError pol.2
  else .ok pol.1 token res.2

/-! ### Transport and backend (`transport.py`, `backend.py`, `auth.py`) -/

/-- A `Set-Cookie` action on the response; `value = none` is the cleared
cookie (`value=""`, `max_age=0`) written by the logout response. -/
structure SetCookieAction where
  key : String
  value : Option Token
  max_age : Nat
deriving DecidableEq

/-- The parts of the HTTP response the authentication flow produces. -/
structure LoginResponse where
  status_code : Nat
  access_token : Option Token
  cookie : Option SetCookieAction
deriving DecidableEq

/-- `BearerTransport.get_login_response`. -/
def get_login_response (access_token : Token) (refresh_token : Option Token) :
    LoginResponse :=
  let response : LoginResponse :=
    { status_code := 200, access_token := some access_token, cookie := none }
  match refresh_token with
  | some rt =>
    { response with
        cookie := some
          { key := REFRESH_TOKEN, value := some rt,
            max_age := REFRESH_TOKEN_LIFETIME_SECONDS } }
  | none => response

/-- `BearerTransport.get_logout_response`. -/
def get_logout_response : LoginResponse :=
  { status_code := 204, access_token := none,
    cookie := some { key := REFRESH_TOKEN, value := none, max_age := 0 } }

/-- `AuthenticationBackend.login`. -/
def backend_login (now key : Nat) (user : User) (is_refresh : Bool) :
    Option LoginResponse :=
  match write_token now key user ACCESS_TOKEN with
  | none => none
  | some access_token =>
    if is_refresh then some (get_login_response access_token none)
    else
      match write_token now key user REFRESH_TOKEN with
      | none => none
      | some refresh_token =>
        some (get_login_response access_token (some refresh_token))

/-- `AuthenticationBackend.logout`: destroy the tokens, then the 204
logout response. -/
def backend_logout (bl : BlacklistStore) (user_id : Nat)
    (access_token_info : Token × Nat)
    (refresh_token_info : Option Token × Option Nat) :
    LoginResponse × BlacklistStore :=
  (get_logout_response, destroy_token bl user_id access_token_info refresh_token_info)

/-- The mutable authentication state a request runs against. -/
structure AppState where
  blacklist : BlacklistStore
  users : Nat → Option User

/-- The `refresh` route body (`auth.py` lines 140-148): once the refresh-token
dependency has resolved `user`, it returns `auth_backend.login(user,
is_refresh=True)`.  Every function on that path (`write_token`,
`generate_jwt`, `get_login_response`) is pure — none reads or writes the
revocation store or the user store — so the state passes through unchanged. -/
def refresh_route (st : AppState) (key now : Nat) (user : User) :
    Option LoginResponse × AppState :=
  (backend_login now key user true, st)

/-! ### Signal dispatcher (`app/core/dispatch/dispatcher.py`)

Receivers and senders are named by their Python identities (`_make_id`):
a receiver identity is a `Nat`, a sender is `Option Nat` with `none` for the
wildcard `sender=None` (`NONE_ID`).  A `dispatch_uid` and an object identity
can never compare equal (`_make_id` returns ids, uids are caller-supplied
keys), so the first key component is a sum.  Weak references are embedded by
carrying the receiver identity and consulting a liveness oracle
`live : Nat → Bool` at deref time; `weakref.finalize` marking
`_dead_receivers` is the `gcFinalize` step. -/

inductive KeyPart where
  | uid (u : Nat)
  | rid (r : Nat)
deriving DecidableEq, Repr

/-- `lookup_key = (dispatch_uid or _make_id(receiver), _make_id(sender))`. -/
abbrev LookupKey := KeyPart × Option Nat

inductive ReceiverRef where
  | strong (r : Nat)
  | weak (r : Nat)
deriving DecidableEq, Repr

/-- A value of `sender_receivers_cache`: the `NO_RECEIVERS` sentinel or a
resolved (not yet dereferenced) receiver list. -/
inductive CacheEntry where
  | noReceivers
  | recvs (l : List ReceiverRef)
deriving DecidableEq, Repr

structure Signal where
  receivers : List (LookupKey × ReceiverRef)
  dead_receivers : Bool
  use_caching : Bool
  cache : List (Option Nat × CacheEntry)
deriving DecidableEq

/-- `Signal.__init__`. -/
def Signal.init (use_caching : Bool) : Signal :=
  { receivers := [], dead_receivers := false, use_caching := use_caching,
    cache := [] }

/-- Dereference a receiver handle: a weak reference to a dead object is gone. -/
def deref (live : Nat → Bool) : ReceiverRef → Option Nat
  | .strong r => some r
  | .weak r => if live r then some r else none

def isDeadRef (live : Nat → Bool) : ReceiverRef → Bool
  | .strong _ => false
  | .weak r => !live r

/-- `Signal._clear_dead_receivers`. -/
def clear_dead (live : Nat → Bool) (s : Signal) : Signal :=
  if s.dead_receivers then
    { s with
        receivers := s.receivers.filter (fun e => !isDeadRef live e.2),
        dead_receivers := false }
  else s

def cacheGet (cache : List (Option Nat × CacheEntry)) (sender : Option Nat) :
    Option CacheEntry :=
  (cache.find? (fun e => decide (e.1 = sender))).map (·.2)

def cacheSet (cache : List (Option Nat × CacheEntry)) (sender : Option Nat)
    (entry : CacheEntry) : List (Option Nat × CacheEntry) :=
  (sender, entry) :: cache.filter (fun e => decide (e.1 ≠ sender))

/-- The `lookup_key` computation shared by `connect` and `disconnect`:
`(dispatch_uid, _make_id(sender))` when a dispatch uid was given, else
`(_make_id(receiver), _make_id(sender))`. -/
def connect_key (receiver : Nat) (sender : Option Nat)
    (dispatch_uid : Option Nat) : LookupKey :=
  match dispatch_uid with
  | some u => (KeyPart.uid u, sender)
  | none => (KeyPart.rid receiver, sender)

/-- `Signal.connect`. -/
def connect (s : Signal) (live : Nat → Bool) (receiver : Nat)
    (sender : Option Nat) (weak : Bool) (dispatch_uid : Option Nat) : Signal :=
  let lookup_key : LookupKey := connect_key receiver sender dispatch_uid
  let ref := if weak then ReceiverRef.weak receiver else ReceiverRef.strong receiver
  let s1 := clear_dead live s
  let s2 :=
    if s1.receivers.any (fun e => decide (e.1 = lookup_key)) then s1
    else { s1 with receivers := s1.receivers ++ [(lookup_key, ref)] }
  { s2 with cache := [] }

def removeFirst (key : LookupKey) :
    List (LookupKey × ReceiverRef) → List (LookupKey × ReceiverRef)
  | [] => []
  | e :: es => if e.1 = key then es else e :: removeFirst key es

/-- `Signal.disconnect`. -/
def disconnect (s : Signal) (live : Nat → Bool) (receiver : Nat)
    (sender : Option Nat) (dispatch_uid : Option Nat) : Bool × Signal :=
  let lookup_key : LookupKey := connect_key receiver sender dispatch_uid
  let s1 := clear_dead live s
  (s1.receivers.any (fun e => decide (e.1 = lookup_key)),
   { s1 with receivers := removeFirst lookup_key s1.receivers, cache := [] })

/-- `Signal._remove_receiver`, run by the `weakref.finalize` installed in
`connect` when a weak receiver's owning object is collected. -/
def mark_dead (s : Signal) : Signal := { s with dead_receivers := true }

/-- The receiver handles registered for `sender` (wildcard entries match
every sender): the loop body of `_live_receivers`. -/
def matching_refs (s : Signal) (sender : Option Nat) : List ReceiverRef :=
  (s.receivers.filter (fun e => decide (e.1.2 = none ∨ e.1.2 = sender))).map (·.2)

/-- The cache write at the end of a `_live_receivers` cache miss. -/
def cache_write (s : Signal) (sender : Option Nat) (rs : List ReceiverRef) :
    Signal :=
  if s.use_caching then
    { s with
        cache := cacheSet s.cache sender
          (if rs.isEmpty then CacheEntry.noReceivers else CacheEntry.recvs rs) }
  else s

/-- `Signal._live_receivers`. -/
def live_receivers (s : Signal) (live : Nat → Bool) (sender : Option Nat) :
    List Nat × Signal :=
  match (if s.use_caching && !s.dead_receivers then cacheGet s.cache sender
         else none) with
  | some CacheEntry.noReceivers => ([], s)
  | some (CacheEntry.recvs l) => (l.filterMap (deref live), s)
  | none =>
    ((matching_refs (clear_dead live s) sender).filterMap (deref live),
     cache_write (clear_dead live s) sender
       (matching_refs (clear_dead live s) sender))

/-- What a resolved receiver returns when invoked: its value, or the raised
exception captured by `asyncio.gather(..., return_exceptions=True)`. -/
inductive Outcome where
  | ok (v : Nat)
  | err (e : Nat)
deriving DecidableEq, Repr

/-- `Signal.send`: `run` is the invocation of one receiver coroutine (its
result, or its raised exception as an `Outcome.err`). -/
def send (s : Signal) (live : Nat → Bool) (run : Nat → Outcome)
    (sender : Option Nat) : List (Nat × Outcome) × Signal :=
  if s.receivers.isEmpty
      || decide (cacheGet s.cache sender = some CacheEntry.noReceivers) then
    ([], s)
  else
    ((live_receivers s live sender).1.map (fun r => (r, run r)),
     (live_receivers s live sender).2)

/-- The receivers a `send` call resolves and invokes. -/
def send_resolved (s : Signal) (live : Nat → Bool) (sender : Option Nat) :
    List Nat :=
  if s.receivers.isEmpty
      || decide (cacheGet s.cache sender = some CacheEntry.noReceivers) then
    []
  else (live_receivers s live sender).1

/-- One dispatcher API call, with the liveness of weak referents at the time
of the call. -/
inductive DispatchOp where
  | connectOp (live : Nat → Bool) (receiver : Nat) (sender : Option Nat)
      (weak : Bool) (dispatch_uid : Option Nat)
  | disconnectOp (live : Nat → Bool) (receiver : Nat) (sender : Option Nat)
      (dispatch_uid : Option Nat)
  | gcFinalize
  | sendOp (live : Nat → Bool) (run : Nat → Outcome) (sender : Option Nat)

def stepOp (s : Signal) : DispatchOp → Signal
  | .connectOp live r snd weak uid => connect s live r snd weak uid
  | .disconnectOp live r snd uid => (disconnect s live r snd uid).2
  | .gcFinalize => mark_dead s
  | .sendOp live run snd => (send s live run snd).2

def runOps (s : Signal) (ops : List DispatchOp) : Signal := ops.foldl stepOp s

/-! ### Concrete data shared by witnesses and counterexamples -/

def sampleUser : User := { id := 7, is_active := true, is_verified := true, is_superuser := false }

def sampleUsers : Nat → Option User := fun i => if i = 7 then some sampleUser else none

def sampleTok : Token :=
  Token.signed 0 ALGORITHM
    { sub := some (natToDecimal 7), token_type := some ACCESS_TOKEN,
      exp := some 4600, aud := some TOKEN_AUDIENCE }

def sampleEnv : Env := { blacklist := ⟨[]⟩, users := sampleUsers, key := 0, now := 1000 }

/-! ### Store lemmas -/

theorem find?_filter_ne (l : List (BlacklistKey × Nat × Option Nat))
    (key k : BlacklistKey) (h : k ≠ key) :
    (l.filter (fun e => decide (e.1 ≠ key))).find? (fun e => decide (e.1 = k))
      = l.find? (fun e => decide (e.1 = k)) := by
  induction l with
  | nil => rfl
  | cons e es ih =>
    rw [List.filter_cons]
    by_cases h1 : e.1 = key
    · have h2 : e.1 ≠ k := fun hh => h (hh.symm.trans h1)
      rw [if_neg (by simp [h1]), ih, List.find?_cons_of_neg _ (by simp [h2])]
    · rw [if_pos (by simp [h1])]
      by_cases h2 : e.1 = k
      · rw [List.find?_cons_of_pos _ (by simp [h2]),
          List.find?_cons_of_pos _ (by simp [h2])]
      · rw [List.find?_cons_of_neg _ (by simp [h2]),
          List.find?_cons_of_neg _ (by simp [h2]), ih]

theorem BlacklistStore.lookup_set (st : BlacklistStore) (key k : BlacklistKey)
    (v : Nat) (ex : Option Nat) :
    (st.set key v ex).lookup k = if k = key then some (v, ex) else st.lookup k := by
  unfold BlacklistStore.set BlacklistStore.lookup
  by_cases hk : k = key
  · subst hk
    rw [List.find?_cons_of_pos _ (by simp)]
    simp
  · rw [List.find?_cons_of_neg _ (by simpa using fun hh : key = k => hk hh.symm),
      find?_filter_ne st.entries key k hk, if_neg hk]

theorem BlacklistStore.has_key_set (st : BlacklistStore) (key k : BlacklistKey)
    (v : Nat) (ex : Option Nat) :
    (st.set key v ex).has_key k = (decide (k = key) || st.has_key k) := by
  unfold BlacklistStore.has_key
  rw [BlacklistStore.lookup_set]
  by_cases hk : k = key <;> simp [hk]

theorem make_key_inj (t t' : Token) : make_key t = make_key t' ↔ t = t' := by
  simp [make_key]

theorem is_blacklisted_set (st : BlacklistStore) (tok : Token) (uid : Nat)
    (ex : Option Nat) (t : Token) :
    is_blacklisted (blacklist_set st tok uid ex) t
      = (decide (t = tok) || is_blacklisted st t) := by
  unfold is_blacklisted blacklist_set
  rw [BlacklistStore.has_key_set]
  by_cases h : t = tok
  · subst h; simp
  · have h2 : make_key t ≠ make_key tok := fun hh => h ((make_key_inj t tok).mp hh)
    simp [h, h2]

/-! ### `read_token` case analysis -/

theorem read_token_cases (env : Env) (t : Token) (required : String) :
    read_token env t required = (none, none)
    ∨ ∃ (data : Payload) (uid : String) (pid : Nat) (u : User),
        is_blacklisted env.blacklist t = false ∧
        decode_jwt env.now t env.key TOKEN_AUDIENCE [ALGORITHM] = some data ∧
        data.sub = some uid ∧ data.token_type = some required ∧
        parse_id uid = some pid ∧ env.users pid = some u ∧
        read_token env t required = (some u, data.exp) := by
  unfold read_token
  split
  · exact Or.inl rfl
  next hbl =>
    split
    · exact Or.inl rfl
    next data hdec =>
      split
      next uid tt hsub htt =>
        split
        next hne => exact Or.inl rfl
        next hne =>
          split
          next hp => exact Or.inl rfl
          next pid hp =>
            split
            next hu => exact Or.inl rfl
            next u hu =>
              refine Or.inr ⟨data, uid, pid, u, ?_, hdec, hsub, ?_, hp, hu, rfl⟩
              · simpa using hbl
              · rw [htt]; simp at hne; rw [hne]
      next h1 => exact Or.inl rfl

/-- Claim C2: `read_token` performs, in order, (1) the revocation check,
(2) signature/claims verification (audience, expiry, and presence of the
`sub` and token-type claims), (3) the kind match, (4) the principal lookup
(decimal parse, then user fetch); each failing stage short-circuits to the
single uniform result `(none, none)`, and a non-failure passes every stage,
so the caller cannot tell why a token was rejected. -/
theorem C2_read_token_check_order (env : Env) (t : Token) (required : String) :
    (is_blacklisted env.blacklist t = true → read_token env t required = (none, none))
    ∧ (decode_jwt env.now t env.key TOKEN_AUDIENCE [ALGORITHM] = none →
        read_token env t required = (none, none))
    ∧ (∀ data : Payload,
        decode_jwt env.now t env.key TOKEN_AUDIENCE [ALGORITHM] = some data →
        data.sub = none ∨ data.token_type = none →
        read_token env t required = (none, none))
    ∧ (∀ (data : Payload) (tt : String),
        decode_jwt env.now t env.key TOKEN_AUDIENCE [ALGORITHM] = some data →
        data.token_type = some tt → tt ≠ required →
        read_token env t required = (none, none))
    ∧ (∀ (data : Payload) (uid : String),
        decode_jwt env.now t env.key TOKEN_AUDIENCE [ALGORITHM] = some data →
        data.sub = some uid → parse_id uid = none →
        read_token env t required = (none, none))
    ∧ (∀ (data : Payload) (uid : String) (pid : Nat),
        decode_jwt env.now t env.key TOKEN_AUDIENCE [ALGORITHM] = some data →
        data.sub = some uid → parse_id uid = some pid → env.users pid = none →
        read_token env t required = (none, none))
    ∧ (∀ (u : User) (e? : Option Nat), read_token env t required = (some u, e?) →
        is_blacklisted env.blacklist t = false ∧
        ∃ (data : Payload) (uid : String) (pid : Nat),
          decode_jwt env.now t env.key TOKEN_AUDIENCE [ALGORITHM] = some data ∧
          data.sub = some uid ∧ data.token_type = some required ∧
          parse_id uid = some pid ∧ env.users pid = some u ∧ e? = data.exp)
    ∧ ((read_token env t required).1 = none →
        read_token env t required = (none, none)) := by
  rcases read_token_cases env t required with h |
    ⟨data', uid', pid', u', hbl', hdec', hsub', htt', hp', hu', hres'⟩
  · refine ⟨fun _ => h, fun _ => h, fun _ _ _ => h, fun _ _ _ _ _ => h,
      fun _ _ _ _ _ => h, fun _ _ _ _ _ _ _ => h, ?_, fun _ => h⟩
    intro u e? hcontra
    rw [h] at hcontra
    simp at hcontra
  · refine ⟨?_, ?_, ?_, ?_, ?_, ?_, ?_, ?_⟩
    · intro hbl; rw [hbl] at hbl'; exact Bool.noConfusion hbl'
    · intro hdec; rw [hdec] at hdec'; exact Option.noConfusion hdec'
    · intro data hdec hmiss
      rw [hdec] at hdec'; injection hdec' with hdd; subst hdd
      rcases hmiss with hm | hm
      · rw [hm] at hsub'; exact Option.noConfusion hsub'
      · rw [hm] at htt'; exact Option.noConfusion htt'
    · intro data tt hdec htt hne
      rw [hdec] at hdec'; injection hdec' with hdd; subst hdd
      rw [htt] at htt'; injection htt' with h2; exact absurd h2 hne
    · intro data uid hdec hsub hp
      rw [hdec] at hdec'; injection hdec' with hdd; subst hdd
      rw [hsub] at hsub'; injection hsub' with h2; subst h2
      rw [hp] at hp'; exact Option.noConfusion hp'
    · intro data uid pid hdec hsub hp hu
      rw [hdec] at hdec'; injection hdec' with hdd; subst hdd
      rw [hsub] at hsub'; injection hsub' with h2; subst h2
      rw [hp] at hp'; injection hp' with h3; subst h3
      rw [hu] at hu'; exact Option.noConfusion hu'
    · intro u e? h
      rw [hres'] at h
      injection h with h1 h2
      injection h1 with h1
      subst h1
      exact ⟨hbl', data', uid', pid', hdec', hsub', htt', hp', hu', h2.symm⟩
    · intro h1
      rw [hres'] at h1
      simp at h1

/-- Claim C4: `destroy_token` always inserts the access token into the
revocation store, and inserts the refresh token exactly when one was
presented (`refresh_token_info`'s token component is not `None`); no other
token's revocation status changes. -/
theorem C4_logout_revocation (bl : BlacklistStore) (uid : Nat)
    (a : Token × Nat) (r : Option Token × Option Nat) (t : Token) :
    is_blacklisted (destroy_token bl uid a r) t
      = (is_blacklisted bl t || decide (t = a.1)
          || (match r.1 with | some rt => decide (t = rt) | none => false)) := by
  unfold destroy_token
  cases hr : r.1 with
  | none =>
    simp only [is_blacklisted_set]
    cases h1 : decide (t = a.1) <;> cases h2 : is_blacklisted bl t <;> simp
  | some rt =>
    simp only [is_blacklisted_set]
    cases h1 : decide (t = a.1) <;> cases h2 : is_blacklisted bl t <;>
      cases h3 : decide (t = rt) <;> simp

/-- Claim C1, counterexample: at `now = 1000`, `read_token` returns the raw
`exp` claim `4600` (not the remaining lifetime `3600 = 4600 - 1000`), and
`destroy_token` stores the revocation entry with expiry `4600` — not with
the token's remaining lifetime as the claim states. -/
theorem C1_counterexample :
    (read_token sampleEnv sampleTok ACCESS_TOKEN).2 = some 4600
    ∧ sampleEnv.now = 1000
    ∧ (destroy_token sampleEnv.blacklist 7 (sampleTok, 4600)
        (none, none)).lookup (make_key sampleTok) = some (7, some 4600)
    ∧ ¬ ((destroy_token sampleEnv.blacklist 7 (sampleTok, 4600)
        (none, none)).lookup (make_key sampleTok)
          = some (7, some (4600 - sampleEnv.now))) := by
  decide

/-- Claim C1 as amended: the revocation entry for a logged-out token is
stored with expiry exactly the second component `read_token` returned for
it — the token's absolute `exp` timestamp, an upper bound of (not equal to)
the remaining lifetime `exp - now`. -/
theorem C1_amended_ttl (env : Env) (tok : Token) (required : String)
    (u : User) (e : Nat) (bl : BlacklistStore) (uid : Nat)
    (rtok : Option Token) (rex : Option Nat)
    (hread : read_token env tok required = (some u, some e))
    (hne : rtok ≠ some tok) :
    (destroy_token bl uid (tok, e) (rtok, rex)).lookup (make_key tok)
        = some (uid, some e)
    ∧ e - env.now ≤ e := by
  refine ⟨?_, Nat.sub_le e env.now⟩
  unfold destroy_token
  cases rtok with
  | none =>
    simp only [blacklist_set]
    rw [BlacklistStore.lookup_set, if_pos rfl]
  | some rt =>
    have hrt : rt ≠ tok := fun hh => hne (by rw [hh])
    simp only [blacklist_set]
    rw [BlacklistStore.lookup_set,
      if_neg (fun hh => hrt ((make_key_inj tok rt).mp hh).symm),
      BlacklistStore.lookup_set, if_pos rfl]

/-- Claim C1, witness for the amended theorem at the sample token. -/
theorem C1_witness :
    (destroy_token sampleEnv.blacklist 7 (sampleTok, 4600)
        (none, none)).lookup (make_key sampleTok) = some (7, some 4600)
    ∧ 4600 - sampleEnv.now ≤ 4600 :=
  C1_amended_ttl sampleEnv sampleTok ACCESS_TOKEN sampleUser 4600
    sampleEnv.blacklist 7 none none (by decide) (by decide)

/-- Claim C3: a token freshly issued for principal `u` with kind `K` reads
back, under the same required kind, as that principal (with the token's
expiry), provided the principal still exists, the token was not revoked,
and it has not expired. -/
theorem C3_round_trip (env : Env) (u : User) (K : String) (t0 L : Nat)
    (tok : Token)
    (hL : lifetime_seconds K = some L)
    (hwrite : write_token t0 env.key u K = some tok)
    (hbl : is_blacklisted env.blacklist tok = false)
    (hexp : env.now < t0 + L)
    (husers : env.users u.id = some u) :
    read_token env tok K = (some u, some (t0 + L)) := by
  have htok : tok = generate_jwt t0 ⟨some (natToDecimal u.id), some K⟩
      env.key TOKEN_AUDIENCE L ALGORITHM := by
    unfold write_token at hwrite
    rw [hL] at hwrite
    simp only [Option.map] at hwrite
    exact (Option.some_injective _ hwrite).symm
  subst htok
  simp only [generate_jwt] at hbl
  simp [read_token, decode_jwt, generate_jwt, hbl, expOk, hexp,
    parse_id_natToDecimal, husers]

/-- Claim C3, witness: the sample token issued at `t0 = 1000` for the sample
user reads back as that user with expiry `4600`. -/
theorem C3_witness :
    read_token sampleEnv sampleTok ACCESS_TOKEN = (some sampleUser, some (1000 + 3600)) :=
  C3_round_trip sampleEnv sampleUser ACCESS_TOKEN 1000 3600 sampleTok
    (by decide) (by decide) (by decide) (by decide) (by decide)

/-- Claim C10: a token whose signature, audience and expiry verify but whose
payload lacks the `sub` claim or the token-type claim yields the same
uniform `(none, none)` as every other invalid token. -/
theorem C10_missing_claims (env : Env) (t : Token) (required : String)
    (data : Payload)
    (hbl : is_blacklisted env.blacklist t = false)
    (hdec : decode_jwt env.now t env.key TOKEN_AUDIENCE [ALGORITHM] = some data)
    (hmiss : data.sub = none ∨ data.token_type = none) :
    read_token env t required = (none, none) := by
  unfold read_token
  rw [hbl]
  simp only [Bool.false_eq_true, if_false, hdec]
  rcases hmiss with hm | hm
  · rw [hm]
  · rw [hm]
    cases data.sub <;> rfl

/-- Claim C10, witness: a correctly signed, unexpired token with the right
audience but no `sub` claim reads as `(none, none)`. -/
theorem C10_witness :
    read_token sampleEnv
      (Token.signed 0 ALGORITHM
        { sub := none, token_type := some ACCESS_TOKEN,
          exp := some 4600, aud := some TOKEN_AUDIENCE })
      ACCESS_TOKEN = (none, none) :=
  C10_missing_claims sampleEnv
    (Token.signed 0 ALGORITHM
      { sub := none, token_type := some ACCESS_TOKEN,
        exp := some 4600, aud := some TOKEN_AUDIENCE })
    ACCESS_TOKEN
    { sub := none, token_type := some ACCESS_TOKEN,
      exp := some 4600, aud := some TOKEN_AUDIENCE }
    (by decide) (by decide) (Or.inl rfl)

/-! ### Authenticator policy (claims C5, C6) -/

def unverifiedUser : User :=
  { id := 5, is_active := true, is_verified := false, is_superuser := false }

def unverifiedTok : Token :=
  Token.signed 0 ALGORITHM
    { sub := some (natToDecimal 5), token_type := some ACCESS_TOKEN,
      exp := some 4600, aud := some TOKEN_AUDIENCE }

def unverifiedEnv : Env :=
  { blacklist := ⟨[]⟩,
    users := fun i => if i = 5 then some unverifiedUser else none,
    key := 0, now := 1000 }

def unverifiedKwargs : String → Option Token := fun n =>
  if n = name_to_variable_name BACKEND_NAME ACCESS_TOKEN then some unverifiedTok
  else none

/-- Claim C5, counterexample: with `optional = true` and `verified = true`,
an unverified principal is resolved but the resolver does not fail with 403
as the claim states — it succeeds, returning a `None` principal. -/
theorem C5_counterexample :
    read_token unverifiedEnv unverifiedTok ACCESS_TOKEN
        = (some unverifiedUser, some 4600)
    ∧ unverifiedUser.is_verified = false
    ∧ authenticate unverifiedEnv unverifiedKwargs ACCESS_TOKEN true true true false
        = AuthResult.ok none (some unverifiedTok) (some 4600)
    ∧ authenticate unverifiedEnv unverifiedKwargs ACCESS_TOKEN true true true false
        ≠ AuthResult.httpError HTTP_403_FORBIDDEN := by
  decide

/-- Claim C5 as amended: the policy ladder in its fixed order — no principal
and `optional = false` fails 401; an inactive principal under `active` is
treated as absent (fails 401 when `optional = false`, yields a `None`
principal otherwise); a surviving principal failing the `verified` or
`superuser` check fails 403 when `optional = false` and yields a `None`
principal when `optional = true`; a principal passing every check is
returned. -/
theorem C5_policy_order (env : Env) (kwargs : String → Option Token)
    (token_type : String) (optional active verified superuser : Bool) :
    ((resolve_credential env kwargs token_type).1 = none → optional = false →
      authenticate env kwargs token_type optional active verified superuser
        = AuthResult.httpError HTTP_401_UNAUTHORIZED)
    ∧ ((resolve_credential env kwargs token_type).1 = none → optional = true →
      authenticate env kwargs token_type optional active verified superuser
        = AuthResult.ok none (kwargs (name_to_variable_name BACKEND_NAME token_type))
            (resolve_credential env kwargs token_type).2)
    ∧ (∀ u, (resolve_credential env kwargs token_type).1 = some u →
      active = true → u.is_active = false →
      (optional = false →
        authenticate env kwargs token_type optional active verified superuser
          = AuthResult.httpError HTTP_401_UNAUTHORIZED)
      ∧ (optional = true →
        authenticate env kwargs token_type optional active verified superuser
          = AuthResult.ok none (kwargs (name_to_variable_name BACKEND_NAME token_type))
              (resolve_credential env kwargs token_type).2))
    ∧ (∀ u, (resolve_credential env kwargs token_type).1 = some u →
      (active = false ∨ u.is_active = true) →
      (verified && !u.is_verified || superuser && !u.is_superuser) = true →
      (optional = false →
        authenticate env kwargs token_type optional active verified superuser
          = AuthResult.httpError HTTP_403_FORBIDDEN)
      ∧ (optional = true →
        authenticate env kwargs token_type optional active verified superuser
          = AuthResult.ok none (kwargs (name_to_variable_name BACKEND_NAME token_type))
              (resolve_credential env kwargs token_type).2))
    ∧ (∀ u, (resolve_credential env kwargs token_type).1 = some u →
      (active = false ∨ u.is_active = true) →
      (verified && !u.is_verified || superuser && !u.is_superuser) = false →
      authenticate env kwargs token_type optional active verified superuser
        = AuthResult.ok (some u) (kwargs (name_to_variable_name BACKEND_NAME token_type))
            (resolve_credential env kwargs token_type).2) := by
  have hinact : ∀ u : User, (active = false ∨ u.is_active = true) →
      (active && !u.is_active) = false := by
    rintro u (h | h) <;> simp [h]
  refine ⟨?_, ?_, ?_, ?_, ?_⟩
  · intro hres hopt
    simp [authenticate, apply_policy, hres, hopt]
  · intro hres hopt
    simp [authenticate, apply_policy, hres, hopt]
  · intro u hres hact hia
    constructor <;> intro hopt <;>
      simp [authenticate, apply_policy, hres, hact, hia, hopt]
  · intro u hres hdisj hfail
    constructor <;> intro hopt <;>
      simp [authenticate, apply_policy, hres, hinact u hdisj, hfail, hopt]
  · intro u hres hdisj hfail
    simp [authenticate, apply_policy, hres, hinact u hdisj, hfail]

/-- Claim C6, counterexample: the resolver's declared inputs always contain
the refresh-cookie parameter, even when the required kind is the access
token — "extracted only when the required kind is refresh" fails at
`required_token_type = "access_token"`. -/
theorem C6_counterexample :
    ¬ (∀ required_token_type : String,
        name_to_variable_name BACKEND_NAME REFRESH_TOKEN ∈ get_dependency_signature →
        required_token_type = REFRESH_TOKEN) := by
  intro h
  exact absurd (h ACCESS_TOKEN (by decide)) (by decide)

/-- Claim C6 as amended: `_get_dependency_signature` takes no token-kind
input and always declares the same three parameters — the user manager, the
access-token bearer parameter, and the refresh-token cookie parameter — for
every required kind; the token actually consumed is then selected from
these by name at call time. -/
theorem C6_signature_fixed :
    get_dependency_signature
      = ["user_manager", "access_token_jwt_bearer", "refresh_token_jwt_bearer"] := by
  decide

/-! ### Refresh (claim C9) -/

/-- Claim C9: the refresh route issues exactly one new access token: the
response carries no refresh cookie (the refresh token is reused, not
reissued), the application state — in particular the revocation store — is
unchanged, and therefore every previously issued token reads back exactly
as before the refresh, until its own expiry. -/
theorem C9_refresh_frame (st : AppState) (key now : Nat) (u : User) :
    (refresh_route st key now u).2 = st
    ∧ (∃ atok, write_token now key u ACCESS_TOKEN = some atok ∧
        (refresh_route st key now u).1
          = some { status_code := 200, access_token := some atok, cookie := none })
    ∧ (∀ resp, (refresh_route st key now u).1 = some resp → resp.cookie = none)
    ∧ (∀ (t : Token) (required : String) (k2 n2 : Nat),
        read_token
          ⟨(refresh_route st key now u).2.blacklist,
           (refresh_route st key now u).2.users, k2, n2⟩ t required
          = read_token ⟨st.blacklist, st.users, k2, n2⟩ t required) := by
  have hw : write_token now key u ACCESS_TOKEN
      = some (generate_jwt now ⟨some (natToDecimal u.id), some ACCESS_TOKEN⟩
          key TOKEN_AUDIENCE ACCESS_TOKEN_LIFETIME_SECONDS ALGORITHM) := rfl
  have hroute : (refresh_route st key now u).1
      = some { status_code := 200,
               access_token := some (generate_jwt now
                 ⟨some (natToDecimal u.id), some ACCESS_TOKEN⟩
                 key TOKEN_AUDIENCE ACCESS_TOKEN_LIFETIME_SECONDS ALGORITHM),
               cookie := none } := rfl
  refine ⟨rfl, ⟨_, hw, hroute⟩, ?_, fun _ _ _ _ => rfl⟩
  intro resp h
  rw [hroute] at h
  injection h with h1
  rw [← h1]

/-! ### Dispatcher lemmas (claims C7, C8) -/

theorem clear_dead_receivers_sublist (live : Nat → Bool) (s : Signal) :
    (clear_dead live s).receivers.Sublist s.receivers := by
  unfold clear_dead
  split
  · exact List.filter_sublist _
  · exact List.Sublist.refl _

theorem removeFirst_sublist (key : LookupKey) :
    ∀ l : List (LookupKey × ReceiverRef), (removeFirst key l).Sublist l := by
  intro l
  induction l with
  | nil => exact List.Sublist.refl _
  | cons e es ih =>
    unfold removeFirst
    split
    · exact List.sublist_cons_self e es
    · exact ih.cons₂ e

theorem cache_write_receivers (s : Signal) (sender : Option Nat)
    (rs : List ReceiverRef) : (cache_write s sender rs).receivers = s.receivers := by
  unfold cache_write
  split <;> rfl

theorem live_receivers_snd_sublist (s : Signal) (live : Nat → Bool)
    (sender : Option Nat) :
    (live_receivers s live sender).2.receivers.Sublist s.receivers := by
  unfold live_receivers
  split
  · exact List.Sublist.refl _
  · exact List.Sublist.refl _
  · rw [cache_write_receivers]
    exact clear_dead_receivers_sublist live s

theorem send_snd_sublist (s : Signal) (live : Nat → Bool) (run : Nat → Outcome)
    (sender : Option Nat) :
    (send s live run sender).2.receivers.Sublist s.receivers := by
  unfold send
  split
  · exact List.Sublist.refl _
  · exact live_receivers_snd_sublist s live sender

theorem nodup_keys_of_sublist {l l' : List (LookupKey × ReceiverRef)}
    (h : l.Sublist l') (hn : (l'.map Prod.fst).Nodup) :
    (l.map Prod.fst).Nodup :=
  hn.sublist (h.map Prod.fst)

theorem connect_keys_nodup (s : Signal) (live : Nat → Bool) (r : Nat)
    (sender : Option Nat) (weak : Bool) (uid : Option Nat)
    (h : (s.receivers.map Prod.fst).Nodup) :
    ((connect s live r sender weak uid).receivers.map Prod.fst).Nodup := by
  have h1 : ((clear_dead live s).receivers.map Prod.fst).Nodup :=
    nodup_keys_of_sublist (clear_dead_receivers_sublist live s) h
  unfold connect
  cases hany : (clear_dead live s).receivers.any
      (fun e => decide (e.1 = connect_key r sender uid)) with
  | true => simpa [hany] using h1
  | false =>
    have hnotin : ∀ x : ReceiverRef,
        (connect_key r sender uid, x) ∉ (clear_dead live s).receivers := by
      intro x hmem
      have := List.any_eq_false.mp hany _ hmem
      simp at this
    simp only [hany, Bool.false_eq_true, if_false]
    simpa [List.nodup_append] using ⟨h1, hnotin⟩

theorem stepOp_keys_nodup (s : Signal) (op : DispatchOp)
    (h : (s.receivers.map Prod.fst).Nodup) :
    ((stepOp s op).receivers.map Prod.fst).Nodup := by
  cases op with
  | connectOp live r snd weak uid => exact connect_keys_nodup s live r snd weak uid h
  | disconnectOp live r snd uid =>
    refine nodup_keys_of_sublist ?_ h
    have h1 : (stepOp s (.disconnectOp live r snd uid)).receivers
        = removeFirst (connect_key r snd uid) (clear_dead live s).receivers := rfl
    rw [h1]
    exact (removeFirst_sublist _ _).trans (clear_dead_receivers_sublist live s)
  | gcFinalize => exact h
  | sendOp live run snd =>
    exact nodup_keys_of_sublist (send_snd_sublist s live run snd) h

theorem runOps_keys_nodup : ∀ (ops : List DispatchOp) (s : Signal),
    (s.receivers.map Prod.fst).Nodup →
    ((runOps s ops).receivers.map Prod.fst).Nodup := by
  intro ops
  induction ops with
  | nil => exact fun s h => h
  | cons op rest ih =>
    intro s h
    exact ih (stepOp s op) (stepOp_keys_nodup s op h)

/-- Claim C7: across every sequence of dispatcher operations from a fresh
`Signal`, no two receiver-list entries ever share a `lookup_key`; connecting
the same `(receiver, sender, dispatch_uid)` twice leaves exactly one
registration, and a subsequent `send` to that sender invokes the receiver
exactly once (when weakly referenced, provided its referent is alive). -/
theorem C7_registration_unique :
    (∀ (uc : Bool) (ops : List DispatchOp),
        ((runOps (Signal.init uc) ops).receivers.map Prod.fst).Nodup)
    ∧ (∀ (uc : Bool) (live : Nat → Bool) (run : Nat → Outcome) (r : Nat)
        (sender : Option Nat) (weak : Bool) (uid : Option Nat),
        (connect (connect (Signal.init uc) live r sender weak uid)
            live r sender weak uid).receivers.length = 1
        ∧ ((weak = true → live r = true) →
            (send (connect (connect (Signal.init uc) live r sender weak uid)
                live r sender weak uid) live run sender).1 = [(r, run r)])) := by
  constructor
  · intro uc ops
    exact runOps_keys_nodup ops (Signal.init uc) (by simp [Signal.init])
  · intro uc live run r sender weak uid
    have hck : (connect_key r sender uid).2 = sender := by
      cases uid <;> rfl
    have hc2 : connect (connect (Signal.init uc) live r sender weak uid)
        live r sender weak uid
        = { receivers := [(connect_key r sender uid,
              if weak then ReceiverRef.weak r else ReceiverRef.strong r)],
            dead_receivers := false, use_caching := uc, cache := [] } := by
      simp [connect, clear_dead, Signal.init]
    constructor
    · rw [hc2]; rfl
    · intro hlive
      rw [hc2]
      cases weak with
      | false =>
        simp [send, live_receivers, cacheGet, matching_refs, clear_dead,
          cache_write, deref, hck]
      | true =>
        simp [send, live_receivers, cacheGet, matching_refs, clear_dead,
          cache_write, deref, hck, hlive rfl]

/-- Claim C8: `send` pairs every resolved live receiver with that receiver's
own outcome — a raised exception is captured as the paired error, never
propagated, and never prevents any other resolved receiver from being
invoked and paired with its result; concretely, with two independently
registered receivers where the first raises, the second still runs and both
results are returned. -/
theorem C8_error_isolation :
    (∀ (s : Signal) (live : Nat → Bool) (run : Nat → Outcome) (sender : Option Nat),
        (send s live run sender).1
          = (send_resolved s live sender).map (fun r => (r, run r)))
    ∧ (∀ (uc : Bool) (live : Nat → Bool) (run : Nat → Outcome)
        (a b e v : Nat) (sender : Option Nat),
        a ≠ b → run a = Outcome.err e → run b = Outcome.ok v →
        (send (connect (connect (Signal.init uc) live a sender false none)
            live b sender false none) live run sender).1
          = [(a, Outcome.err e), (b, Outcome.ok v)]) := by
  constructor
  · intro s live run sender
    unfold send send_resolved
    split
    · rfl
    · rfl
  · intro uc live run a b e v sender hab ha hb
    have hc2 : connect (connect (Signal.init uc) live a sender false none)
        live b sender false none
        = { receivers := [((KeyPart.rid a, sender), ReceiverRef.strong a),
                          ((KeyPart.rid b, sender), ReceiverRef.strong b)],
            dead_receivers := false, use_caching := uc, cache := [] } := by
      simp [connect, clear_dead, Signal.init, connect_key, hab]
    rw [hc2]
    simp [send, live_receivers, cacheGet, matching_refs, clear_dead,
      cache_write, deref, ha, hb]

end FastFurious
